import Mathlib

/-!
Shallow embedding of `src/app.py` (macro dashboard): the SDMX recursive
parser, the FRED fetch pipeline, the pandas `pct_change`-based derived
metrics, the indicator dispatch of `get_series`, the `st.cache_data`
TTL cache (modelled from the spec, the implementation lives in the
streamlit library), and the table-rendering (`Tabelle`) branch.
Machine floats of the source are modelled by exact rationals extended
with IEEE-style `nan`/`inf` markers for the operations the code uses.
-/

namespace App

/-- Decoded JSON values, as produced by `response.json()` in the source.
Objects are association lists in key order (Python dicts preserve
insertion order; `json.loads` keeps the last duplicate key, so decoded
objects have unique keys). -/
inductive Json where
  | null : Json
  | bool (b : Bool) : Json
  | num (q : ℚ) : Json
  | str (s : String) : Json
  | arr (elems : List Json) : Json
  | obj (fields : List (String × Json)) : Json

/-- Python truthiness of a decoded JSON value: `None`, `False`, `0`,
`""`, `[]`, `{}` are falsy, everything else truthy. -/
def truthy : Json → Bool
  | .null => false
  | .bool b => b
  | .num q => q ≠ 0
  | .str s => s ≠ ""
  | .arr l => ¬ l.isEmpty
  | .obj l => ¬ l.isEmpty

/-- Truthiness of an optional value (`None` for a missing key is falsy). -/
def truthyOpt : Option Json → Bool
  | none => false
  | some j => truthy j

/-- Python `a or b`: the first operand when truthy, else the second. -/
def pyOr (a b : Option Json) : Option Json :=
  if truthyOpt a then a else b

/-- Python `d.get(k)`: the value for `k` or `None`. -/
def pyGet (fields : List (String × Json)) (k : String) : Option Json :=
  (fields.find? (fun p => p.1 == k)).map (·.2)

/-- Python `k in d`. -/
def hasKey (fields : List (String × Json)) (k : String) : Bool :=
  fields.any (fun p => p.1 == k)

/-- A float value as pandas/NumPy hold it: a real number (modelled as an
exact rational), or one of the IEEE specials the code can produce. -/
inductive PVal where
  | nan : PVal
  | pinf : PVal
  | ninf : PVal
  | num (q : ℚ) : PVal
deriving DecidableEq, Repr

/-- IEEE subtraction for the cases the code exercises. -/
def PVal.sub : PVal → PVal → PVal
  | .nan, _ => .nan
  | _, .nan => .nan
  | .pinf, .pinf => .nan
  | .pinf, _ => .pinf
  | .ninf, .ninf => .nan
  | .ninf, _ => .ninf
  | .num _, .pinf => .ninf
  | .num _, .ninf => .pinf
  | .num a, .num b => .num (a - b)

/-- IEEE division: division of a nonzero number by zero gives a signed
infinity, `0/0` gives `nan`. -/
def PVal.div : PVal → PVal → PVal
  | .nan, _ => .nan
  | _, .nan => .nan
  | .pinf, .pinf => .nan
  | .pinf, .ninf => .nan
  | .ninf, .pinf => .nan
  | .ninf, .ninf => .nan
  | .pinf, .num b => if b < 0 then .ninf else .pinf
  | .ninf, .num b => if b < 0 then .pinf else .ninf
  | .num _, .pinf => .num 0
  | .num _, .ninf => .num 0
  | .num a, .num b =>
      if b = 0 then (if a > 0 then .pinf else if a < 0 then .ninf else .nan)
      else .num (a / b)

/-- Multiplication by the positive constant `100` (the `* 100` in the
source). -/
def PVal.mul100 : PVal → PVal
  | .nan => .nan
  | .pinf => .pinf
  | .ninf => .ninf
  | .num a => .num (100 * a)

/-- `pd.isna` on a scalar float: true exactly for `nan`. -/
def PVal.isNan : PVal → Bool
  | .nan => true
  | _ => false

/-- The numeric value of a decimal digit character, if it is one. -/
def charDigit (c : Char) : Option ℕ :=
  if 48 ≤ c.toNat ∧ c.toNat ≤ 57 then some (c.toNat - 48) else none

/-- Parse a nonempty all-digit character list as a natural number. -/
def digitsVal : List Char → Option ℕ
  | [] => none
  | cs => cs.foldl (fun acc c => match acc, charDigit c with
      | some n, some d => some (n * 10 + d)
      | _, _ => none) (some 0)

/-- Digits, empty allowed (contributes 0); used for the two sides of a
decimal point. -/
def digitsOrEmpty (cs : List Char) : Option ℕ :=
  if cs.isEmpty then some 0 else digitsVal cs

/-- Split a character list at every occurrence of `sep`, keeping empty
segments (the behavior of Python `str.split(sep)`). -/
def splitOnChar (sep : Char) : List Char → List (List Char)
  | [] => [[]]
  | c :: t =>
      let rest := splitOnChar sep t
      if c = sep then [] :: rest
      else
        match rest with
        | [] => [[c]]
        | seg :: more => (c :: seg) :: more

/-- ASCII lower-casing of one character. -/
def lowerChar (c : Char) : Char :=
  if 65 ≤ c.toNat ∧ c.toNat ≤ 90 then Char.ofNat (c.toNat + 32) else c

/-- ASCII lower-casing of a character list (`str.lower()`). -/
def lowerChars (cs : List Char) : List Char := cs.map lowerChar

/-- ASCII whitespace, as `float()` strips it. -/
def isSpaceChar (c : Char) : Bool :=
  c = ' ' ∨ c = '\t' ∨ c = '\n' ∨ c = '\r'

/-- Strip leading and trailing whitespace. -/
def trimChars (cs : List Char) : List Char :=
  ((cs.dropWhile isSpaceChar).reverse.dropWhile isSpaceChar).reverse

/-- Parse an unsigned decimal literal such as `3`, `3.5`, `3.`, `.5`. -/
def parseUnsignedDec (cs : List Char) : Option ℚ :=
  match splitOnChar '.' cs with
  | [a] => (digitsVal a).map (fun n => (n : ℚ))
  | [a, b] =>
      if a.isEmpty ∧ b.isEmpty then none
      else
        match digitsOrEmpty a, digitsOrEmpty b with
        | some i, some f => some ((i : ℚ) + (f : ℚ) / ((10 : ℚ) ^ b.length))
        | _, _ => none
  | _ => none

/-- Python `float(str)` on the common literal forms: optional sign,
decimal digits with optional point, and the special spellings
`inf`/`infinity`/`nan` (case-insensitive). Other strings raise
`ValueError` (`none`). -/
def parseFloatStr (s : String) : Option PVal :=
  let t := trimChars s.data
  let low := lowerChars t
  if low = "inf".data ∨ low = "+inf".data ∨ low = "infinity".data ∨ low = "+infinity".data
  then some .pinf
  else if low = "-inf".data ∨ low = "-infinity".data then some .ninf
  else if low = "nan".data ∨ low = "+nan".data ∨ low = "-nan".data then some .nan
  else
    match t with
    | '-' :: rest => (parseUnsignedDec rest).map (fun q => .num (-q))
    | '+' :: rest => (parseUnsignedDec rest).map (fun q => .num q)
    | _ => (parseUnsignedDec t).map (fun q => .num q)

/-- Python `float(v)` on a decoded JSON value; `none` models the raised
`TypeError`/`ValueError` (caught by the `except: continue` in the
source). `float(None)` raises, and so does `float` of a list or dict. -/
def pyFloat : Option Json → Option PVal
  | none => none
  | some .null => none
  | some (.bool b) => some (.num (if b then 1 else 0))
  | some (.num q) => some (.num q)
  | some (.str s) => parseFloatStr s
  | some (.arr _) => none
  | some (.obj _) => none

/-- Calendar dates are encoded as the ordinal `y*10000 + m*100 + d`,
which orders exactly like the calendar date. -/
def dateOrd (y m d : ℕ) : ℕ := y * 10000 + m * 100 + d

/-- `pd.to_datetime` on a string: `"YYYY"`, `"YYYY-MM"` and
`"YYYY-MM-DD"` forms (the shapes the providers emit); anything else
fails (`none`). Missing month/day default to 1 as pandas does. -/
def parseDateStr (s : String) : Option ℕ :=
  match splitOnChar '-' s.data with
  | [y] =>
      if y.length = 4 then (digitsVal y).map (fun yn => dateOrd yn 1 1) else none
  | [y, m] =>
      match digitsVal y, digitsVal m with
      | some yn, some mn =>
          if y.length = 4 ∧ 1 ≤ mn ∧ mn ≤ 12 then some (dateOrd yn mn 1) else none
      | _, _ => none
  | [y, m, d] =>
      match digitsVal y, digitsVal m, digitsVal d with
      | some yn, some mn, some dn =>
          if y.length = 4 ∧ 1 ≤ mn ∧ mn ≤ 12 ∧ 1 ≤ dn ∧ dn ≤ 31
          then some (dateOrd yn mn dn) else none
      | _, _, _ => none
  | _ => none

/-- `pd.to_datetime(x)` with default `errors`: `.ok (some n)` is a
timestamp, `.ok none` is `NaT` (`to_datetime(None)` returns `NaT`
without raising), `.error ()` is a raised exception. A small integer is
interpreted as nanoseconds since the epoch, i.e. 1970-01-01. -/
def pdToDatetime : Option Json → Except Unit (Option ℕ)
  | none => .ok none
  | some .null => .ok none
  | some (.num _) => .ok (some (dateOrd 1970 1 1))
  | some (.str s) =>
      match parseDateStr s with
      | some n => .ok (some n)
      | none => .error ()
  | some (.bool _) => .error ()
  | some (.arr _) => .error ()
  | some (.obj _) => .error ()

/-- `pd.to_datetime(x, errors="coerce")`: failures become `NaT`. -/
def pdToDatetimeCoerce (x : Option Json) : Option ℕ :=
  match pdToDatetime x with
  | .ok d => d
  | .error _ => none

/-- `pd.to_numeric(x, errors="coerce")`: numbers and numeric strings
convert, everything else becomes `nan`. -/
def pdToNumericCoerce : Option Json → PVal
  | none => .nan
  | some .null => .nan
  | some (.bool b) => .num (if b then 1 else 0)
  | some (.num q) => .num q
  | some (.str s) => (parseFloatStr s).getD .nan
  | some (.arr _) => .nan
  | some (.obj _) => .nan

/-- One entry of a normalized series: the date index value (`none` is
`NaT`) and the float value. -/
abbrev Obs := Option ℕ × PVal

/-- A pandas `Series` indexed by dates, as the fetchers return it. -/
abbrev Series := List Obs

/-- Index comparison used by ascending `sort_index()`: dates ascending,
`NaT` placed last (`na_position="last"`). -/
def dateLE : Option ℕ → Option ℕ → Bool
  | some a, some b => a ≤ b
  | some _, none => true
  | none, some _ => false
  | none, none => true

/-- Index comparison used by `sort_index(ascending=False)`: dates
descending, `NaT` still last. -/
def dateGE : Option ℕ → Option ℕ → Bool
  | some a, some b => b ≤ a
  | some _, none => true
  | none, some _ => false
  | none, none => true

/-- Insertion step of the sort over observations. -/
def insBy (le : Option ℕ → Option ℕ → Bool) (a : Obs) : List Obs → List Obs
  | [] => [a]
  | b :: t => if le a.1 b.1 then a :: b :: t else b :: insBy le a t

/-- Sort observations by index with the given comparison. -/
def sortByDate (le : Option ℕ → Option ℕ → Bool) : List Obs → List Obs
  | [] => []
  | a :: t => insBy le a (sortByDate le t)

/-- `sort_index()` — ascending, `NaT` last. -/
def sortAsc (s : Series) : Series := sortByDate dateLE s

/-- `sort_index(ascending=False)` — descending, `NaT` last. -/
def sortDesc (s : Series) : Series := sortByDate dateGE s

/-- The date `d` is at most the head's date (vacuous on `[]`). -/
def leHead (d : Option ℕ) : List Obs → Bool
  | [] => true
  | b :: _ => dateLE d b.1

/-- The index is weakly ascending (with `NaT` last). -/
def ascByDate : List Obs → Bool
  | [] => true
  | a :: t => leHead a.1 t && ascByDate t

/-- The date `d` is strictly below the head's date. -/
def ltHead (d : Option ℕ) : List Obs → Bool
  | [] => true
  | b :: _ => dateLE d b.1 && !(d == b.1)

/-- The index is strictly ascending: ascending with all dates distinct
(what the spec asserts of normalizer output). -/
def strictAscByDate : List Obs → Bool
  | [] => true
  | a :: t => ltHead a.1 t && strictAscByDate t

/-- The observation-trigger test of `recurse` in `parse_sdmx_json`:
some key of the dict lowercases to `obs`/`observation`/`value`. -/
def obsKey (k : String) : Bool :=
  lowerChars k.data = "obs".data ∨ lowerChars k.data = "observation".data ∨
    lowerChars k.data = "value".data

mutual

/-- The `recurse` walk of `parse_sdmx_json`: collect, in visit order,
every dict that has a key in the `obs`/`observation`/`value` alias set
together with both `TIME_PERIOD` and `OBS_VALUE` keys; a collected dict
is appended once and its remaining items are not descended into. -/
def collectJson : Json → List (List (String × Json))
  | .obj fs => collectFields fs fs
  | .arr xs => collectList xs
  | _ => []
termination_by structural j => j

/-- Walk the items of one dict (`self`) in order, with the early
`return` of the source: a triggering key appends `self` and stops. -/
def collectFields : List (String × Json) → List (String × Json) → List (List (String × Json))
  | [], _ => []
  | (k, v) :: rest, self =>
      if obsKey k ∧ hasKey self "TIME_PERIOD" ∧ hasKey self "OBS_VALUE"
      then [self]
      else collectJson v ++ collectFields rest self
termination_by structural l => l

/-- Walk the items of a list in order. -/
def collectList : List Json → List (List (String × Json))
  | [] => []
  | x :: t => collectJson x ++ collectList t
termination_by structural l => l

end

/-- One iteration of the row-building loop of `parse_sdmx_json`: the
falsy-chained alias lookups for date and value, then
`pd.to_datetime(d)` and `float(v)`; any raised exception drops the row
(`except: continue`). -/
def obsToRow (o : List (String × Json)) : Option Obs :=
  let d := pyOr (pyGet o "TIME_PERIOD") (pyOr (pyGet o "date") (pyOr (pyGet o "TIME") (pyGet o "time")))
  let v := pyOr (pyGet o "OBS_VALUE") (pyOr (pyGet o "value") (pyGet o "Value"))
  match pdToDatetime d, pyFloat v with
  | .ok date, some val => some (date, val)
  | _, _ => none

/-- `parse_sdmx_json` after `response.json()` succeeded: collect
observations, build rows (dropping rows whose date or value conversion
raises), return an empty series when no row was built, else drop
`nan`-valued rows (`dropna(subset=["value"])`) and sort ascending by
the date index. -/
def parse_sdmx_json (payload : Json) : Series :=
  let rows := (collectJson payload).filterMap obsToRow
  if rows.isEmpty then []
  else sortAsc (rows.filter (fun r => !r.2.isNan))

/-- Exceptions the fetch pipelines can raise. -/
inductive PyError where
  | keyError (k : String) : PyError
  | attributeError : PyError
  | valueError : PyError
deriving DecidableEq, Repr

deriving instance DecidableEq for Except

/-- `pd.DataFrame(records)` column membership: a column exists when
some record (a dict) carries the key. -/
def recordsHaveCol (records : List (List (String × Json))) (k : String) : Bool :=
  records.any (fun r => hasKey r k)

/-- `pd.DataFrame(j)` record extraction: every element must be a dict
(the FRED record-array shape); anything else raises. -/
def asRecords : List Json → Except PyError (List (List (String × Json)))
  | [] => .ok []
  | .obj fs :: t =>
      match asRecords t with
      | .ok rs => .ok (fs :: rs)
      | .error e => .error e
  | _ :: _ => .error .valueError

/-- The body of `fetch_usa` after `requests.get(...).json()`:
`j = payload.get("observations", [])`, `df = pd.DataFrame(j)`,
`df["date"] = pd.to_datetime(df["date"], errors="coerce")`,
`df["value"] = pd.to_numeric(df["value"], errors="coerce")`,
`df.set_index("date")["value"].sort_index()`. Reading a column of an
empty or column-less frame raises `KeyError`; `.get` on a non-dict
payload raises `AttributeError`. `pd.DataFrame` is modelled for the
record-list shape FRED returns (a JSON array of objects); scalar or
mixed inputs raise. -/
def fetch_usa_process (payload : Json) : Except PyError Series :=
  match payload with
  | .obj fs =>
      match (pyGet fs "observations").getD (.arr []) with
      | .arr items =>
          match asRecords items with
          | .ok records =>
              if recordsHaveCol records "date" then
                if recordsHaveCol records "value" then
                  .ok (sortAsc (records.map (fun r =>
                    (pdToDatetimeCoerce (pyGet r "date"), pdToNumericCoerce (pyGet r "value")))))
                else .error (.keyError "value")
              else .error (.keyError "date")
          | .error e => .error e
      | _ => .error .valueError
  | _ => .error .attributeError

/-- The value of `(s / s.shift(lag) - 1) * 100` at position `i`: pandas
`Series.pct_change(lag)` (no forward-filling, the current pandas
default) followed by the `* 100` of the source. A shifted-out base
(`i < lag`) is the missing value `nan`. -/
def pctChangeVal (vals : List PVal) (lag i : ℕ) : PVal :=
  PVal.mul100
    (PVal.sub
      (PVal.div (vals.getD i .nan)
        (if i < lag then .nan else vals.getD (i - lag) .nan))
      (.num 1))

/-- `idx.pct_change(lag) * 100` as used in `get_series`: the output
keeps the input's index and length; entry `i` is the percent change
against the value `lag` positions earlier. -/
def pctChange (lag : ℕ) (s : Series) : Series :=
  (List.range s.length).map
    (fun i => ((s.getD i (none, .nan)).1, pctChangeVal (s.map (·.2)) lag i))

/-- The transform applied after a fetch in `get_series`. -/
inductive Transform where
  | id : Transform
  | pct (lag : ℕ) : Transform
deriving DecidableEq, Repr

/-- The fetch helper a branch of `get_series` calls, with its
arguments. -/
inductive FetchCall where
  | usa (seriesId : String) : FetchCall
  | eurostat (dataset filters : String) : FetchCall
  | ukUnemp : FetchCall
  | ukCpi : FetchCall
  | germany (code : String) : FetchCall
  | absAu (code : String) : FetchCall
  | statsnz (code : String) : FetchCall
  | estat (apiKeyName statsDataId : String) : FetchCall
  | pxweb (url : String) : FetchCall
  | statcan (tableId : String) : FetchCall
  | worldbank (countryCode ind : String) : FetchCall
deriving DecidableEq, Repr

/-- Outcome of the `get_series` dispatch: a fetch (plus transform), the
literal empty series of the fall-through returns, or a raised
`NameError` for an undefined identifier. -/
inductive Dispatch where
  | fetchThen (call : FetchCall) (t : Transform) : Dispatch
  | emptySeries : Dispatch
  | nameError (ident : String) : Dispatch
deriving DecidableEq, Repr

/-- The module-level names `app.py` defines (imports, globals, and the
`def`s), i.e. the namespace against which a free identifier inside
`get_series` is resolved. -/
def moduleGlobals : List String :=
  ["os", "st", "requests", "pd", "px",
   "API_KEYS", "COUNTRIES", "mode", "indicator", "countries",
   "parse_sdmx_json", "fetch_usa", "fetch_eurostat", "fetch_uk_unemp",
   "fetch_uk_cpi", "fetch_germany", "fetch_abs", "fetch_statsnz",
   "fetch_estat", "fetch_pxweb", "fetch_statcan", "fetch_worldbank",
   "get_series"]

/-- Evaluate a free identifier: a `NameError` when it is not among the
module's globals. -/
def evalIdent (name : String) (mk : String → Dispatch) : Dispatch :=
  if moduleGlobals.contains name then mk name else .nameError name

/-- The `COUNTRIES` list of the sidebar. -/
def COUNTRIES : List String :=
  ["USA", "Eurozone", "UK", "Germany", "Australia",
   "New Zealand", "Japan", "Switzerland", "Canada", "China"]

/-- The three selectable indicators. -/
def INDICATORS : List String :=
  ["Unemployment Rate", "Monthly Inflation Rate", "Annual Inflation Rate"]

/-- The branch structure of `get_series(country)` (the global
`indicator` is passed explicitly): which fetch and transform each
(indicator, country) pair selects, `emptySeries` for the fall-through
`return pd.Series(dtype=float)`, and a `NameError` where the source
references an identifier absent from `moduleGlobals`. -/
def get_series_dispatch (indicator country : String) : Dispatch :=
  if indicator = "Unemployment Rate" then
    if country = "USA" then .fetchThen (.usa "UNRATE") .id
    else if country = "Eurozone" then .fetchThen (.eurostat "une_rt_m" "?precision=1&unit=PC_ACT&geo=EU27_2020") .id
    else if country = "UK" then .fetchThen .ukUnemp .id
    else if country = "Germany" then .fetchThen (.germany "43121-0002") .id
    else if country = "Australia" then .fetchThen (.absAu "6202.0") .id
    else if country = "New Zealand" then .fetchThen (.statsnz "LBUR5") .id
    else if country = "Japan" then .fetchThen (.estat "E_STAT" "000336113") .id
    else if country = "Switzerland" then .fetchThen (.pxweb "https://www.pxweb.bfs.admin.ch/api/v1/de/px.json/ch.statistik.bfs.statistiken/LM06") .id
    else if country = "Canada" then .fetchThen (.statcan "14-10-0287-01") .id
    else if country = "China" then
      evalIdent "WB_UNEMPLOY_IND" (fun i => .fetchThen (.worldbank "CN" i) .id)
    else .emptySeries
  else if indicator = "Monthly Inflation Rate" then
    if country = "USA" then .fetchThen (.usa "CPIAUCSL") (.pct 1)
    else if country = "Eurozone" then .fetchThen (.eurostat "prc_hicp_midx" "?precision=1&unitCode=I15") .id
    else if country = "UK" then .fetchThen .ukCpi (.pct 1)
    else if country = "Germany" then .fetchThen (.germany "43121-0002") (.pct 1)
    else if country = "Australia" then .fetchThen (.absAu "6401.0") (.pct 1)
    else if country = "New Zealand" then .fetchThen (.statsnz "PEZRD") (.pct 1)
    else if country = "Japan" then .fetchThen (.estat "E_STAT" "000341231") (.pct 1)
    else if country = "Switzerland" then .fetchThen (.pxweb "https://www.pxweb.bfs.admin.ch/api/v1/de/px.json/ch.statistik.bfs.statistiken/PRICES") (.pct 1)
    else if country = "Canada" then .fetchThen (.statcan "18-10-0004-01") (.pct 1)
    else if country = "China" then .emptySeries
    else .emptySeries
  else if indicator = "Annual Inflation Rate" then
    if country = "USA" then .fetchThen (.usa "CPIAUCSL") (.pct 12)
    else if country = "Eurozone" then .fetchThen (.eurostat "prc_hicp_midx" "?precision=1&unitCode=I15") (.pct 12)
    else if country = "UK" then .fetchThen .ukCpi (.pct 12)
    else if country = "Germany" then .fetchThen (.germany "43121-0002") (.pct 12)
    else if country = "Australia" then .fetchThen (.absAu "6401.0") (.pct 12)
    else if country = "New Zealand" then .fetchThen (.statsnz "PEZRD") (.pct 12)
    else if country = "Japan" then .fetchThen (.estat "E_STAT" "000341231") (.pct 12)
    else if country = "Switzerland" then .fetchThen (.pxweb "https://www.pxweb.bfs.admin.ch/api/v1/de/px.json/ch.statistik.bfs.statistiken/PRICES") (.pct 12)
    else if country = "Canada" then .fetchThen (.statcan "18-10-0004-01") (.pct 12)
    else if country = "China" then
      evalIdent "WB_INFLATION_IND" (fun i => .fetchThen (.worldbank "CN" i) .id)
    else .emptySeries
  else .emptySeries

/-- Modelled from the spec: the Cache Layer behind the
`@st.cache_data(ttl=3600)` decorators — the implementation is
streamlit library code, not part of `src/`. State is the memo table:
per key, the time of the last fresh fetch. Per the spec, an entry is
"invalidated once age exceeds TTL"; the fetched value itself is
irrelevant to the claims, so only the fetch decision is modelled (the
fetch is assumed to succeed). Returns the updated table and whether the
underlying fetch ran. -/
def getOrFetch (ttl now : ℕ) (table : List (String × ℕ)) (key : String) :
    List (String × ℕ) × Bool :=
  match table.find? (fun p => p.1 == key) with
  | some p =>
      if now - p.2 ≤ ttl then (table, false)
      else ((key, now) :: table.eraseP (fun q => q.1 == key), true)
  | none => ((key, now) :: table, true)

/-- Run a sequence of cache lookups for one key at the given times,
counting how often the underlying fetch ran. -/
def runCalls (ttl : ℕ) (key : String) : List ℕ → List (String × ℕ) → List (String × ℕ) × ℕ
  | [], table => (table, 0)
  | t :: ts, table =>
      let r := getOrFetch ttl t table key
      let rest := runCalls ttl key ts r.1
      (rest.1, (if r.2 then 1 else 0) + rest.2)

/-- Month abbreviations for `strftime("%b %Y")`. -/
def monthAbbrListEn : List String :=
  ["Jan", "Feb", "Mar", "Apr", "May", "Jun",
   "Jul", "Aug", "Sep", "Oct", "Nov", "Dec"]

/-- `d.strftime("%b %Y")` on an encoded date ordinal. -/
def strftimeBY (n : ℕ) : String :=
  monthAbbrListEn.getD (n / 100 % 100 - 1) "" ++ " " ++ toString (n / 10000)

/-- Floor of a rational as an integer (computable, kernel-reducible). -/
def ratFloor (q : ℚ) : ℤ := Int.fdiv q.num (q.den : ℤ)

/-- Round a rational to the nearest integer, ties to even (the rounding
`"%.2f"` formatting applies, idealized to exact arithmetic). -/
def roundHalfEven (x : ℚ) : ℤ :=
  let f := ratFloor x
  if x - f < 1 / 2 then f
  else if x - f > 1 / 2 then f + 1
  else if f % 2 = 0 then f else f + 1

/-- Two-digit zero-padded rendering of a number below 100. -/
def pad2 (k : ℕ) : String :=
  if k < 10 then "0" ++ toString k else toString k

/-- Python `f"{q:.2f}"` on a real value (exact-arithmetic idealization
of the double rounding): two decimals, round half to even, a sign also
on negative values that round to zero. -/
def format2 (q : ℚ) : String :=
  let n := roundHalfEven (q * 100)
  let sign := if n < 0 ∨ (n = 0 ∧ q < 0) then "-" else ""
  sign ++ toString (n.natAbs / 100) ++ "." ++ pad2 (n.natAbs % 100)

/-- The cell formatter of the `Tabelle` branch:
`f"{v:.2f}%" if pd.notna(v) else ""`. Infinities are not `na`, so they
format (`f"{inf:.2f}"` is `"inf"`). -/
def formatVal : PVal → String
  | .nan => ""
  | .pinf => "inf%"
  | .ninf => "-inf%"
  | .num q => format2 q ++ "%"

/-- A cell of the rendered table: a formatted string from the row
lists, or the `NaN` a ragged `DataFrame.from_dict(orient="index")`
pads short rows with. -/
inductive Cell where
  | str (s : String) : Cell
  | napad : Cell
deriving DecidableEq, Repr

/-- One entity's row values:
`get_series(c).sort_index(ascending=False).head(13).tolist()` followed
by the formatting comprehension. -/
def entityRowVals (s : Series) : List String :=
  ((sortDesc s).take 13).map (fun ob => formatVal ob.2)

/-- The canonical column dates: the first entity (in caller order) with
a non-empty series, sorted descending, first 13 index entries. -/
def refDates (entities : List (String × Series)) : List (Option ℕ) :=
  match entities.find? (fun e => !e.2.isEmpty) with
  | some e => ((sortDesc e.2).take 13).map (·.1)
  | none => []

/-- `cols=[d.strftime("%b %Y") for d in dates]`; `NaT.strftime` raises
`ValueError`. -/
def colLabels : List (Option ℕ) → Except PyError (List String)
  | [] => .ok []
  | some n :: t =>
      match colLabels t with
      | .ok ls => .ok (strftimeBY n :: ls)
      | .error e => .error e
  | none :: _ => .error .valueError

/-- The `table[c] = [...]` dict: per entity, its formatted value
list. -/
def tableRows (entities : List (String × Series)) : List (String × List String) :=
  entities.map (fun e => (e.1, entityRowVals e.2))

/-- The width `DataFrame.from_dict(orient="index")` produces from a
ragged list of rows: the length of the widest row. -/
def tableWidth (entities : List (String × Series)) : ℕ :=
  ((tableRows entities).map (fun r => r.2.length)).foldr max 0

/-- The `Tabelle` branch: compute the column labels from the first
non-empty entity, each entity's formatted value list, then
`pd.DataFrame.from_dict(table, orient="index", columns=cols)` — ragged
rows are padded with `NaN` to the widest row, and assigning `cols`
raises a length-mismatch `ValueError` unless its length equals that
width. -/
def buildTable (entities : List (String × Series)) :
    Except PyError (List String × List (String × List Cell)) :=
  match colLabels (refDates entities) with
  | .error e => .error e
  | .ok cols =>
      if cols.length = tableWidth entities then
        .ok (cols, (tableRows entities).map (fun r =>
          (r.1, r.2.map Cell.str ++ List.replicate (tableWidth entities - r.2.length) Cell.napad)))
      else .error .valueError

/-! ## Helper lemmas -/

lemma dateLE_total (a b : Option ℕ) : dateLE a b = true ∨ dateLE b a = true := by
  cases a <;> cases b <;> simp [dateLE]
  omega

lemma leHead_insBy (a b : Obs) (l : List Obs) (hba : dateLE b.1 a.1 = true)
    (hb : leHead b.1 l = true) : leHead b.1 (insBy dateLE a l) = true := by
  cases l with
  | nil => simpa [insBy, leHead] using hba
  | cons c t =>
      by_cases h : dateLE a.1 c.1 = true
      · simpa [insBy, h, leHead] using hba
      · simpa [insBy, h, leHead] using hb

lemma ascByDate_insBy (a : Obs) (l : List Obs) (h : ascByDate l = true) :
    ascByDate (insBy dateLE a l) = true := by
  induction l with
  | nil => rfl
  | cons b t ih =>
      rw [show ascByDate (b :: t) = (leHead b.1 t && ascByDate t) from rfl,
        Bool.and_eq_true] at h
      by_cases hab : dateLE a.1 b.1 = true
      · rw [show insBy dateLE a (b :: t) = a :: b :: t by simp [insBy, hab]]
        show (dateLE a.1 b.1 && (leHead b.1 t && ascByDate t)) = true
        simp [hab, h.1, h.2]
      · rw [show insBy dateLE a (b :: t) = b :: insBy dateLE a t by simp [insBy, hab]]
        show (leHead b.1 (insBy dateLE a t) && ascByDate (insBy dateLE a t)) = true
        have hba : dateLE b.1 a.1 = true := (dateLE_total a.1 b.1).resolve_left hab
        simp [leHead_insBy a b t hba h.1, ih h.2]

lemma ascByDate_sortAsc (l : List Obs) : ascByDate (sortAsc l) = true := by
  unfold sortAsc
  induction l with
  | nil => rfl
  | cons a t ih => simpa [sortByDate] using ascByDate_insBy a _ ih

/-! ## C1 -/

/-- A payload holding two observations that carry the same
`TIME_PERIOD`. -/
def dupObsPayload : Json :=
  .arr [ .obj [("obs", .null), ("TIME_PERIOD", .str "2020-01"), ("OBS_VALUE", .num 1)],
         .obj [("obs", .null), ("TIME_PERIOD", .str "2020-01"), ("OBS_VALUE", .num 2)] ]

/-- C1, counterexample: on a payload with two observations for the same
date, `parse_sdmx_json` keeps both rows — the output has a duplicated
date and is not strictly ascending, so no collapse of duplicate dates
(later occurrence winning) happens. (Only the date sequence is
asserted; the order of the two values under the tied key is left to
the sort.) -/
theorem c1_duplicate_dates_counterexample :
    (parse_sdmx_json dupObsPayload).map Prod.fst = [some 20200101, some 20200101] ∧
    strictAscByDate (parse_sdmx_json dupObsPayload) = false := by
  constructor
  · rfl
  · decide

/-- C1, amended: normalization sorts rows (weakly) ascending by date
for every input — in `parse_sdmx_json` and in the `fetch_usa`
pipeline — but duplicate dates are preserved, not collapsed, so strict
ascent and date uniqueness hold only when the parsed dates are already
distinct. -/
theorem c1_normalizer_sorted_amended :
    (∀ payload, ascByDate (parse_sdmx_json payload) = true) ∧
    (∀ payload s, fetch_usa_process payload = .ok s → ascByDate s = true) := by
  constructor
  · intro payload
    by_cases hr : ((collectJson payload).filterMap obsToRow).isEmpty = true
    · simp [parse_sdmx_json, hr, ascByDate]
    · simp [parse_sdmx_json, hr, ascByDate_sortAsc]
  · intro payload s h
    unfold fetch_usa_process at h
    split at h
    · split at h
      · split at h
        · split at h
          · split at h
            · rw [Except.ok.injEq] at h
              exact h ▸ ascByDate_sortAsc _
            · exact absurd h (by simp)
          · exact absurd h (by simp)
        · exact absurd h (by simp)
      · exact absurd h (by simp)
    · exact absurd h (by simp)

/-- C1, witness for the amended theorem at concrete inputs. -/
theorem c1_sorted_witness :
    ascByDate (parse_sdmx_json dupObsPayload) = true ∧
    ascByDate [(some 20200201, .num 4)] = true := by
  constructor
  · exact c1_normalizer_sorted_amended.1 dupObsPayload
  · exact c1_normalizer_sorted_amended.2
      (.obj [("observations", .arr [.obj [("date", .str "2020-02-01"), ("value", .str "4")]])])
      [(some 20200201, .num 4)] (by decide)

/-! ## C2 -/

/-- C2, counterexample: `fetch_usa` is not defensive — a well-formed
JSON payload that simply lacks observation rows (here the empty object,
so `j = .get("observations", [])` is the empty list and the frame has
no columns) makes `df["date"]` raise a `KeyError` instead of returning
an empty Series. -/
theorem c2_fetch_usa_faults_counterexample :
    fetch_usa_process (.obj []) = .error (.keyError "date") := by decide

/-- C2, amended: the recursive SDMX parser, given any successfully
decoded JSON payload in which its walk recognizes no observation,
returns the empty Series without fault; but the parsers are not
uniformly fault-free — `fetch_usa` raises a `KeyError` on a payload
with zero observation rows, and a non-JSON body raises out of
`response.json()` uncaught. -/
theorem c2_parser_empty_amended (payload : Json)
    (h : collectJson payload = []) : parse_sdmx_json payload = [] := by
  simp [parse_sdmx_json, h]

/-- C2, witness: a shape-mismatched but valid JSON payload yields the
empty Series. -/
theorem c2_parser_empty_witness :
    parse_sdmx_json (.obj [("foo", .num 1)]) = [] :=
  c2_parser_empty_amended (.obj [("foo", .num 1)]) rfl

/-! ## C9 -/

/-- C9: in `parse_sdmx_json`, a collected observation whose
`OBS_VALUE` is the number `0` and which has no `value`/`Value` alias
key produces no row: `0` is falsy, so the chained
`o.get("OBS_VALUE") or o.get("value") or o.get("Value")` evaluates to
`None`, and `float(None)` raises, dropping the row (`filterMap` then
omits it from the series). -/
theorem c9_zero_obs_value_dropped (o : List (String × Json))
    (h0 : pyGet o "OBS_VALUE" = some (.num 0))
    (h1 : pyGet o "value" = none)
    (h2 : pyGet o "Value" = none) :
    obsToRow o = none := by
  unfold obsToRow
  rw [h0, h1, h2]
  have hv : pyOr (some (Json.num 0)) (pyOr none none) = none := by
    simp [pyOr, truthyOpt, truthy]
  rw [hv]
  cases hd : pdToDatetime (pyOr (pyGet o "TIME_PERIOD")
      (pyOr (pyGet o "date") (pyOr (pyGet o "TIME") (pyGet o "time")))) <;> simp [pyFloat]

/-- C9, witness: a concrete collected dict with `OBS_VALUE = 0` and no
alias keys is dropped. -/
theorem c9_zero_obs_value_witness :
    obsToRow [("obs", .null), ("TIME_PERIOD", .str "2020-01"), ("OBS_VALUE", .num 0)] = none :=
  c9_zero_obs_value_dropped
    [("obs", .null), ("TIME_PERIOD", .str "2020-01"), ("OBS_VALUE", .num 0)] rfl rfl rfl

/-! ## C3 and C4 -/

lemma pctChange_getElem? (lag : ℕ) (s : Series) (i : ℕ) (hi : i < s.length) :
    (pctChange lag s)[i]? =
      some ((s.getD i (none, .nan)).1, pctChangeVal (s.map (·.2)) lag i) := by
  simp [pctChange, List.getElem?_map, List.getElem?_range hi]

lemma PVal.div_nan (x : PVal) : PVal.div x .nan = .nan := by cases x <;> rfl

lemma PVal.nan_div (x : PVal) : PVal.div .nan x = .nan := by cases x <;> rfl

/-- A three-point index series. -/
def pcInput : Series := [(some 1, .num 10), (some 2, .num 11), (some 3, .num 12)]

/-- C3, counterexample: `pct_change(1)` keeps the input length — the
leading position is emitted as an absent (`nan`) placeholder, not
dropped, so the output is not shorter than the input by `lag`. -/
theorem c3_leading_positions_counterexample :
    (pctChange 1 pcInput).length = 3 ∧
    ¬ (pctChange 1 pcInput).length = pcInput.length - 1 ∧
    (pctChange 1 pcInput)[0]? = some (some 1, PVal.nan) := by
  refine ⟨by decide, by decide, by decide⟩

/-- C3, amended: for every series and lag, the percent-change output
has exactly the input's length, and each of the first `lag` positions
is present as an absent (`nan`) placeholder, keeping the input's date
at that position. -/
theorem c3_absent_placeholders_amended (lag : ℕ) (s : Series) :
    (pctChange lag s).length = s.length ∧
    ∀ i, i < lag → i < s.length →
      (pctChange lag s)[i]? = some ((s.getD i (none, .nan)).1, PVal.nan) := by
  constructor
  · simp [pctChange]
  · intro i hil his
    rw [pctChange_getElem? lag s i his]
    have hv : pctChangeVal (s.map (·.2)) lag i = PVal.nan := by
      unfold pctChangeVal
      rw [if_pos hil, PVal.div_nan]
      rfl
    rw [hv]

/-- C3, witness for the amended theorem. -/
theorem c3_absent_placeholders_witness :
    (pctChange 2 [(some 5, PVal.nan)]).length = 1 ∧
    (pctChange 2 [(some 5, PVal.nan)])[0]? = some (some 5, PVal.nan) := by
  refine ⟨(c3_absent_placeholders_amended 2 [(some 5, PVal.nan)]).1, ?_⟩
  have h := (c3_absent_placeholders_amended 2 [(some 5, PVal.nan)]).2 0
    (by decide) (by decide)
  simpa using h

/-- C4, counterexample: when the base value is zero and the current
value nonzero, the output is positive infinity — a present, non-absent
value — contradicting "otherwise it is absent". -/
theorem c4_zero_base_counterexample :
    (pctChange 1 [(some 1, PVal.num 0), (some 2, PVal.num 5)])[1]? =
      some (some 2, PVal.pinf) ∧ PVal.pinf ≠ PVal.nan := by
  refine ⟨by decide, by decide⟩

/-- C4, amended: at position `i ≥ lag`, the output equals
`(value[i] − value[i−lag]) / value[i−lag] × 100` when both operands are
present and the base nonzero, and is absent when either operand is
absent; but when the base is zero the result is not absent: it is
`+inf`/`-inf` for a nonzero current value (and `nan` only when the
current value is zero as well). -/
theorem c4_percent_change_formula_amended (s : Series) (lag i : ℕ)
    (hi : i < s.length) (hl : lag ≤ i) :
    (∀ a b : ℚ, (s.map (·.2)).getD i .nan = .num a →
        (s.map (·.2)).getD (i - lag) .nan = .num b → b ≠ 0 →
        (pctChange lag s)[i]? =
          some ((s.getD i (none, .nan)).1, .num ((a - b) / b * 100))) ∧
    (((s.map (·.2)).getD i .nan = .nan ∨ (s.map (·.2)).getD (i - lag) .nan = .nan) →
        (pctChange lag s)[i]? = some ((s.getD i (none, .nan)).1, .nan)) ∧
    (∀ a : ℚ, (s.map (·.2)).getD i .nan = .num a →
        (s.map (·.2)).getD (i - lag) .nan = .num 0 →
        (pctChange lag s)[i]? = some ((s.getD i (none, .nan)).1,
          if 0 < a then PVal.pinf else if a < 0 then PVal.ninf else PVal.nan)) := by
  have hnl : ¬ i < lag := Nat.not_lt.mpr hl
  refine ⟨?_, ?_, ?_⟩
  · intro a b ha hb hb0
    rw [pctChange_getElem? lag s i hi]
    have hv : pctChangeVal (s.map (·.2)) lag i = .num ((a - b) / b * 100) := by
      unfold pctChangeVal
      rw [if_neg hnl, ha, hb]
      simp only [PVal.div, PVal.sub, PVal.mul100, if_neg hb0]
      have : (100 : ℚ) * (a / b - 1) = (a - b) / b * 100 := by
        field_simp
        ring
      rw [this]
    rw [hv]
  · intro h
    rw [pctChange_getElem? lag s i hi]
    have hv : pctChangeVal (s.map (·.2)) lag i = PVal.nan := by
      unfold pctChangeVal
      rw [if_neg hnl]
      rcases h with hc | hb
      · rw [hc, PVal.nan_div]
        rfl
      · rw [hb, PVal.div_nan]
        rfl
    rw [hv]
  · intro a ha hb
    rw [pctChange_getElem? lag s i hi]
    have hv : pctChangeVal (s.map (·.2)) lag i =
        (if 0 < a then PVal.pinf else if a < 0 then PVal.ninf else PVal.nan) := by
      unfold pctChangeVal
      rw [if_neg hnl, ha, hb]
      simp only [PVal.div, PVal.sub, PVal.mul100, if_pos rfl]
      split_ifs <;> rfl
    rw [hv]

/-- C4, witness for the amended theorem at a concrete series. -/
theorem c4_percent_change_witness :
    (pctChange 1 [(some 1, PVal.num 1), (some 2, PVal.num 2)])[1]? =
      some (some 2, PVal.num (((2 : ℚ) - 1) / 1 * 100)) :=
  (c4_percent_change_formula_amended [(some 1, .num 1), (some 2, .num 2)] 1 1
    (by decide) (by decide)).1 2 1 rfl rfl (by norm_num)

/-! ## C6 -/

lemma getOrFetch_cached (key : String) (t1 t : ℕ) (h : t - t1 ≤ 3600) :
    getOrFetch 3600 t [(key, t1)] key = ([(key, t1)], false) := by
  simp [getOrFetch, List.find?_cons, h]

lemma runCalls_cached (key : String) (t1 : ℕ) :
    ∀ ts : List ℕ, (∀ t ∈ ts, t ≤ t1 + 3600) →
      runCalls 3600 key ts [(key, t1)] = ([(key, t1)], 0) := by
  intro ts
  induction ts with
  | nil => intro _; rfl
  | cons t ts ih =>
      intro h
      have h1 : t - t1 ≤ 3600 := by
        have := h t (by simp)
        omega
      have h2 := ih (fun x hx => h x (by simp [hx]))
      simp [runCalls, getOrFetch_cached key t1 t h1, h2]

/-- C6: two cache lookups for the same key whose second call is still
within the 3600-second window of the first fetch run the underlying
fetch exactly once — in fact any number of further calls inside the
window adds no fetch — and a call made after the window has expired
runs the fetch again. (Modelled from the spec: the `st.cache_data`
implementation is streamlit library code, not part of `src/`.) -/
theorem c6_cache_ttl_single_fetch (key : String) (t1 t2 : ℕ) (ts : List ℕ)
    (hwin : ∀ t ∈ ts, t ≤ t1 + 3600) (hexp : t1 + 3600 < t2) :
    (runCalls 3600 key (t1 :: ts) []).2 = 1 ∧
    (runCalls 3600 key [t1, t2] []).2 = 2 := by
  constructor
  · simp [runCalls, getOrFetch, List.find?_nil, runCalls_cached key t1 ts hwin]
  · have h2 : ¬ (t2 - t1 ≤ 3600) := by omega
    simp [runCalls, getOrFetch, List.find?_nil, List.find?_cons, h2]

/-- C6, witness: a repeat call at 100 seconds is served from cache; a
call at 9999 seconds refetches. -/
theorem c6_cache_ttl_witness :
    (runCalls 3600 "query" [0, 100] []).2 = 1 ∧
    (runCalls 3600 "query" [0, 9999] []).2 = 2 :=
  c6_cache_ttl_single_fetch "query" 0 9999 [100] (by simp) (by omega)

/-! ## C7 and C10 -/

/-- C7: a (country, indicator) selection outside the mapping tables —
a country not in `COUNTRIES` or an indicator not among the three — falls
through every branch of `get_series` to the final
`return pd.Series(dtype=float)`: an empty Series, not an exception. -/
theorem c7_no_mapping_returns_empty (country indicator : String)
    (h : country ∉ COUNTRIES ∨ indicator ∉ INDICATORS) :
    get_series_dispatch indicator country = .emptySeries := by
  rcases h with hc | hi
  · simp only [COUNTRIES, List.mem_cons, List.not_mem_nil, or_false, not_or] at hc
    obtain ⟨h1, h2, h3, h4, h5, h6, h7, h8, h9, h10⟩ := hc
    simp only [get_series_dispatch, h1, h2, h3, h4, h5, h6, h7, h8, h9, h10,
      if_false, ite_self]
  · simp only [INDICATORS, List.mem_cons, List.not_mem_nil, or_false, not_or] at hi
    obtain ⟨h1, h2, h3⟩ := hi
    simp only [get_series_dispatch, h1, h2, h3, if_false]

/-- C7, witness: the spec's own example, an unmapped country. -/
theorem c7_no_mapping_witness :
    get_series_dispatch "Unemployment Rate" "Atlantis" = .emptySeries :=
  c7_no_mapping_returns_empty "Atlantis" "Unemployment Rate" (Or.inl (by decide))

/-- C10: selecting China with "Unemployment Rate" or
"Annual Inflation Rate" reaches `fetch_worldbank("CN", WB_UNEMPLOY_IND)`
resp. `fetch_worldbank("CN", WB_INFLATION_IND)`, and neither identifier
is defined anywhere among the module's globals, so the call raises
`NameError` instead of returning a Series. -/
theorem c10_china_nameerror :
    get_series_dispatch "Unemployment Rate" "China" = .nameError "WB_UNEMPLOY_IND" ∧
    get_series_dispatch "Annual Inflation Rate" "China" = .nameError "WB_INFLATION_IND" ∧
    moduleGlobals.contains "WB_UNEMPLOY_IND" = false ∧
    moduleGlobals.contains "WB_INFLATION_IND" = false := by decide

/-! ## C5 and C8 -/

lemma le_foldrMax {l : List ℕ} {x : ℕ} (h : x ∈ l) : x ≤ l.foldr max 0 := by
  induction l with
  | nil => cases h
  | cons a t ih =>
      rcases List.mem_cons.mp h with rfl | h'
      · exact le_max_left _ _
      · exact le_trans (ih h') (le_max_right _ _)

lemma colLabels_ok_get : ∀ {ds : List (Option ℕ)} {cols : List String},
    colLabels ds = .ok cols →
    ∀ (j : ℕ) (od : Option ℕ), ds[j]? = some od →
      ∃ n : ℕ, od = some n ∧ cols[j]? = some (strftimeBY n) := by
  intro ds
  induction ds with
  | nil =>
      intro cols _ j od hj
      simp at hj
  | cons d t ih =>
      intro cols h j od hj
      match d with
      | none => simp [colLabels] at h
      | some n =>
          rw [colLabels] at h
          cases hr : colLabels t with
          | error e => rw [hr] at h; cases h
          | ok ls =>
              rw [hr] at h
              rw [Except.ok.injEq] at h
              subst h
              match j with
              | 0 =>
                  rw [List.getElem?_cons_zero] at hj
                  refine ⟨n, by simpa using hj.symm, ?_⟩
                  rw [List.getElem?_cons_zero]
              | j + 1 =>
                  rw [List.getElem?_cons_succ] at hj
                  obtain ⟨m, hm, hcols⟩ := ih hr j od hj
                  refine ⟨m, hm, ?_⟩
                  rw [List.getElem?_cons_succ]
                  exact hcols

lemma buildTable_ok_inv {entities : List (String × Series)} {cols : List String}
    {rows : List (String × List Cell)} (h : buildTable entities = .ok (cols, rows)) :
    colLabels (refDates entities) = .ok cols ∧ cols.length = tableWidth entities ∧
    rows = (tableRows entities).map (fun r =>
      (r.1, r.2.map Cell.str ++ List.replicate (tableWidth entities - r.2.length) Cell.napad)) := by
  unfold buildTable at h
  split at h
  · cases h
  · split at h
    · rename_i cols' heq hw
      rw [Except.ok.injEq, Prod.mk.injEq] at h
      obtain ⟨rfl, rfl⟩ := h
      exact ⟨heq, hw, rfl⟩
    · cases h

/-- Entities forming a table whose reference entity is shorter than a
later entity. -/
def mismatchEntities : List (String × Series) :=
  [("A", [(some 20200101, .nan), (some 20200201, .nan)]),
   ("B", [(some 20200101, .nan), (some 20200201, .nan), (some 20200301, .nan)])]

/-- C5, counterexample: entity `A` (the reference, and short of the
13-wide window) fixes 2 columns, while entity `B` brings 3 values; the
`from_dict(..., columns=cols)` length mismatch raises `ValueError`, so
nothing is rendered for any entity — short series are not simply padded
up to the column count. -/
theorem c5_table_abort_counterexample :
    buildTable mismatchEntities = .error .valueError := by decide

/-- C5, amended: when table construction succeeds (no entity's row is
longer than the reference column count), every entity's row — in
particular every short or empty one — is right-padded with `NaN`
placeholder cells to exactly the column count, an empty entity's row
being entirely placeholders; but when some entity's row exceeds the
column count, `from_dict` raises a length-mismatch `ValueError` that
aborts rendering of all entities. In-series absent values render as
blank (`""`) cells, while the padding cells are `NaN` placeholders. -/
theorem c5_short_series_padded_amended (entities : List (String × Series))
    (cols : List String) (rows : List (String × List Cell))
    (h : buildTable entities = .ok (cols, rows)) :
    (∀ p ∈ rows, p.2.length = cols.length) ∧
    (∀ (i : ℕ) (c : String) (s : Series), entities[i]? = some (c, s) → s = [] →
        rows[i]? = some (c, List.replicate cols.length Cell.napad)) := by
  obtain ⟨hcl, hw, hrows⟩ := buildTable_ok_inv h
  constructor
  · intro p hp
    rw [hrows] at hp
    obtain ⟨r, hr, rfl⟩ := List.mem_map.mp hp
    have hle : r.2.length ≤ tableWidth entities :=
      le_foldrMax (List.mem_map_of_mem (fun r => r.2.length) hr)
    simp only [List.length_append, List.length_map, List.length_replicate, hw]
    omega
  · intro i c s hi hs
    subst hs
    rw [hrows, List.getElem?_map]
    have ht : (tableRows entities)[i]? = some (c, entityRowVals []) := by
      unfold tableRows
      rw [List.getElem?_map, hi]
      rfl
    rw [ht]
    have he : entityRowVals ([] : Series) = [] := rfl
    simp [he, hw]

/-- C5, witness: a two-entity table with one empty entity builds, the
empty entity's row being all placeholder cells of the column count. -/
theorem c5_short_series_witness :
    (∀ p ∈ [("A", [Cell.str ""]), ("E", [Cell.napad])], p.2.length = ["Jan 2020"].length) ∧
    (∀ (i : ℕ) (c : String) (s : Series),
        ([("A", [(some 20200101, PVal.nan)]), ("E", ([] : Series))])[i]? = some (c, s) →
        s = [] →
        [("A", [Cell.str ""]), ("E", [Cell.napad])][i]? =
          some (c, List.replicate ["Jan 2020"].length Cell.napad)) :=
  c5_short_series_padded_amended
    [("A", [(some 20200101, PVal.nan)]), ("E", ([] : Series))]
    ["Jan 2020"] [("A", [Cell.str ""]), ("E", [Cell.napad])] (by decide)

/-- C8: when the table builds, the first entity (in caller order) with
a non-empty series supplies the columns — its 13 most recent dates,
sorted descending, each labeled `"%b %Y"` — and every entity's row
holds its own up-to-13 most recent formatted values positionally,
most-recent-first, against those columns. -/
theorem c8_positional_alignment (entities : List (String × Series))
    (cols : List String) (rows : List (String × List Cell))
    (h : buildTable entities = .ok (cols, rows)) :
    (∀ e : String × Series, entities.find? (fun x => !x.2.isEmpty) = some e →
        ∀ (j : ℕ) (od : Option ℕ), (((sortDesc e.2).take 13).map Prod.fst)[j]? = some od →
          ∃ n : ℕ, od = some n ∧ cols[j]? = some (strftimeBY n)) ∧
    (∀ (i : ℕ) (c : String) (s : Series), entities[i]? = some (c, s) →
        ∃ row : List Cell, rows[i]? = some (c, row) ∧
          ∀ (j : ℕ) (ob : Obs), ((sortDesc s).take 13)[j]? = some ob →
            row[j]? = some (Cell.str (formatVal ob.2))) := by
  obtain ⟨hcl, hw, hrows⟩ := buildTable_ok_inv h
  constructor
  · intro e hfind j od hj
    have href : refDates entities = ((sortDesc e.2).take 13).map Prod.fst := by
      unfold refDates
      rw [hfind]
    rw [← href] at hj
    exact colLabels_ok_get hcl j od hj
  · intro i c s hi
    refine ⟨(entityRowVals s).map Cell.str ++
      List.replicate (tableWidth entities - (entityRowVals s).length) Cell.napad, ?_, ?_⟩
    · rw [hrows, List.getElem?_map]
      have ht : (tableRows entities)[i]? = some (c, entityRowVals s) := by
        unfold tableRows
        rw [List.getElem?_map, hi]
        rfl
      rw [ht]
      rfl
    · intro j ob hj
      have hjl : j < ((sortDesc s).take 13).length := by
        by_contra hle
        rw [List.getElem?_eq_none (Nat.le_of_not_lt hle)] at hj
        cases hj
      have hjlen : j < (entityRowVals s).length := by
        simpa [entityRowVals, List.length_map] using hjl
      rw [List.getElem?_append_left (by simpa [List.length_map] using hjlen),
        List.getElem?_map]
      unfold entityRowVals
      rw [List.getElem?_map, hj]
      rfl

/-- C8, witness: a one-entity table — the entity supplies the columns
and its own values sit positionally, most recent first. -/
theorem c8_positional_alignment_witness :
    (∀ e : String × Series, ([("X", [(some 20200101, PVal.nan), (some 20200201, PVal.nan)])]).find?
        (fun x => !x.2.isEmpty) = some e →
      ∀ (j : ℕ) (od : Option ℕ), (((sortDesc e.2).take 13).map Prod.fst)[j]? = some od →
        ∃ n : ℕ, od = some n ∧ ["Feb 2020", "Jan 2020"][j]? = some (strftimeBY n)) ∧
    (∀ (i : ℕ) (c : String) (s : Series),
        ([("X", [(some 20200101, PVal.nan), (some 20200201, PVal.nan)])])[i]? =
        some (c, s) →
      ∃ row : List Cell, [("X", [Cell.str "", Cell.str ""])][i]? = some (c, row) ∧
        ∀ (j : ℕ) (ob : Obs), ((sortDesc s).take 13)[j]? = some ob →
          row[j]? = some (Cell.str (formatVal ob.2))) :=
  c8_positional_alignment [("X", [(some 20200101, PVal.nan), (some 20200201, PVal.nan)])]
    ["Feb 2020", "Jan 2020"] [("X", [Cell.str "", Cell.str ""])] (by decide)

end App
